import Mathlib

/-!
# SentinelPay core — shallow embedding and verification

This file embeds the core of the SentinelPay transaction risk-scoring and
audit system (TypeScript sources: the full engine in `src/unnamed/part_000`
and the ledger in `src/src/engine/ImmutableLedger.ts`, with the hash
primitive from `src/src/engine/crypto.ts`), and proves or refutes the
frozen specification claims about it.

Conventions of the embedding:
* machine numbers are `Nat` / `Int` with explicit `% 2 ^ 32` where the
  JavaScript source does 32-bit arithmetic (the SHA-256 rounds);
* timestamps and currency amounts are `Nat` (the spec fixes amounts to
  non-negative integers); time-window comparisons are done in `Int`
  exactly as the source computes `now - WINDOW`;
* the fractional multipliers 1.1, 1.2, 1.25 and the \xb15% amount band are
  modelled in `Rat`; for the integer operands that can reach them the
  IEEE-double computation of the source agrees with exact rational
  arithmetic, so the embedding is exact;
* the Haversine great-circle distance (float trigonometry) is abstracted
  as a distance-oracle parameter `dist`; every theorem about the engine is
  universally quantified over it;
* `performance.now()` / `Date.now()` readings are oracle parameters.
-/

namespace SentinelPay

set_option maxRecDepth 10000

/-! ## Hash primitive (src/src/engine/crypto.ts)

`crypto.ts` is the classic synchronous JavaScript SHA-256 over 8-bit
(Latin-1/ASCII) strings: it derives the standard FIPS 180-4 round
constants from the first 64 primes at startup and returns `undefined`
(which callers coerce to `""`) when any character is outside 0..255.
The embedding uses the standard constant tables, which is what the
startup derivation produces, and works on `Nat` words reduced mod 2^32. -/

/-- 2^32, the word modulus of the 32-bit SHA-256 arithmetic. -/
def M32 : Nat := 4294967296

/-- 32-bit right rotation (crypto.ts `rightRotate`). -/
def rotr (x n : Nat) : Nat := ((x >>> n) ||| (x <<< (32 - n))) % M32

/-- SHA-256 `ch(e,f,g) = (e AND f) XOR ((NOT e) AND g)` on 32-bit words. -/
def ch32 (e f g : Nat) : Nat := (e &&& f) ^^^ ((4294967295 ^^^ e) &&& g)

/-- SHA-256 `maj(a,b,c)`. -/
def maj32 (a b c : Nat) : Nat := (a &&& b) ^^^ (a &&& c) ^^^ (b &&& c)

/-- SHA-256 big sigma-0 (crypto.ts comment `S0`). -/
def bsig0 (a : Nat) : Nat := rotr a 2 ^^^ rotr a 13 ^^^ rotr a 22

/-- SHA-256 big sigma-1 (crypto.ts comment `S1`). -/
def bsig1 (e : Nat) : Nat := rotr e 6 ^^^ rotr e 11 ^^^ rotr e 25

/-- SHA-256 small sigma-0 (crypto.ts comment `s0`). -/
def ssig0 (w : Nat) : Nat := rotr w 7 ^^^ rotr w 18 ^^^ (w >>> 3)

/-- SHA-256 small sigma-1 (crypto.ts comment `s1`). -/
def ssig1 (w : Nat) : Nat := rotr w 17 ^^^ rotr w 19 ^^^ (w >>> 10)

/-- The eight initial hash words (fractional parts of the square roots of
the first 8 primes, as crypto.ts computes into `sha256.h`). -/
structure Hash8 where
  a : Nat
  b : Nat
  c : Nat
  d : Nat
  e : Nat
  f : Nat
  g : Nat
  h : Nat

/-- Trial-division primality test, used to regenerate the same prime
sequence as the startup sieve of crypto.ts. -/
def isPrime (n : Nat) : Bool :=
  decide (2 ≤ n) && (List.range n).all (fun d => decide (d < 2) || decide (n % d ≠ 0))

/-- The primes below 313 (crypto.ts sieves until it has the first 64,
and the 64th prime is 311). -/
def sievePrimes : List Nat := (List.range 313).filter isPrime

/-- Integer square root by fueled bisection, maintaining
`lo * lo ≤ n < hi * hi`; structural recursion so the kernel can run it. -/
def isqrtGo (n : Nat) : Nat → Nat → Nat → Nat
  | 0, lo, _ => lo
  | fuel + 1, lo, hi =>
      if hi ≤ lo + 1 then lo
      else
        let mid := (lo + hi) / 2
        if mid * mid ≤ n then isqrtGo n fuel mid hi else isqrtGo n fuel lo mid

/-- `floor (sqrt n)`; 130 bisection steps cover every operand used here. -/
def intSqrt (n : Nat) : Nat := isqrtGo n 130 0 (n + 1)

/-- Integer cube root by fueled bisection. -/
def icbrtGo (n : Nat) : Nat → Nat → Nat → Nat
  | 0, lo, _ => lo
  | fuel + 1, lo, hi =>
      if hi ≤ lo + 1 then lo
      else
        let mid := (lo + hi) / 2
        if mid * mid * mid ≤ n then icbrtGo n fuel mid hi else icbrtGo n fuel lo mid

/-- `floor (cbrt n)`. -/
def intCbrt (n : Nat) : Nat := icbrtGo n 130 0 (n + 1)

/-- `(Math.pow(p, 0.5) * 2^32) | 0` of crypto.ts in exact arithmetic:
the low 32 bits of `floor (sqrt p * 2^32)`. -/
def fracSqrt32 (p : Nat) : Nat := intSqrt (p * 2 ^ 64) % M32

/-- `(Math.pow(p, 1 / 3) * 2^32) | 0` of crypto.ts in exact arithmetic:
the low 32 bits of `floor (cbrt p * 2^32)`.  For the 64 primes involved
the double-precision computation of the source rounds to the same
integers, which the FIPS 180-4 test vectors below confirm end to end. -/
def fracCbrt32 (p : Nat) : Nat := intCbrt (p * 2 ^ 96) % M32

/-- Initial SHA-256 state: fractional square roots of the first 8 primes
(`sha256.h` of crypto.ts). -/
def initHash : Hash8 :=
  let h := (sievePrimes.take 8).map fracSqrt32
  ⟨h.getD 0 0, h.getD 1 0, h.getD 2 0, h.getD 3 0,
   h.getD 4 0, h.getD 5 0, h.getD 6 0, h.getD 7 0⟩

/-- The 64 SHA-256 round constants: fractional cube roots of the first 64
primes (`sha256.k` of crypto.ts). -/
def K256 : List Nat := (sievePrimes.take 64).map fracCbrt32

/-- One step of the message-schedule expansion: append
`s1(w[n-2]) + w[n-7] + s0(w[n-15]) + w[n-16]` mod 2^32. -/
def extendStep (w : List Nat) : List Nat :=
  let n := w.length
  w ++ [(ssig1 (w.getD (n - 2) 0) + w.getD (n - 7) 0 +
         ssig0 (w.getD (n - 15) 0) + w.getD (n - 16) 0) % M32]

/-- Expand a 16-word block to the 64-word message schedule. -/
def extendW (w : List Nat) : List Nat :=
  (List.range 48).foldl (fun acc _ => extendStep acc) w

/-- One SHA-256 round (the body of the 64-iteration loop in crypto.ts). -/
def roundStep (st : Hash8) (kw : Nat × Nat) : Hash8 :=
  let t1 := (st.h + bsig1 st.e + ch32 st.e st.f st.g + kw.1 + kw.2) % M32
  let t2 := (bsig0 st.a + maj32 st.a st.b st.c) % M32
  ⟨(t1 + t2) % M32, st.a, st.b, st.c, (st.d + t1) % M32, st.e, st.f, st.g⟩

/-- Compress one 16-word block into the running hash state. -/
def compress (st : Hash8) (block : List Nat) : Hash8 :=
  let w := extendW block
  let r := (K256.zip w).foldl roundStep st
  ⟨(st.a + r.a) % M32, (st.b + r.b) % M32, (st.c + r.c) % M32, (st.d + r.d) % M32,
   (st.e + r.e) % M32, (st.f + r.f) % M32, (st.g + r.g) % M32, (st.h + r.h) % M32⟩

/-- Fold the compression function over the padded word stream, 16 words at
a time (the outer `for (j = 0; j < words.length;)` loop of crypto.ts).
Padding guarantees the stream length is a multiple of 16. -/
def processBlocks : Hash8 → List Nat → Hash8
  | st, w0 :: w1 :: w2 :: w3 :: w4 :: w5 :: w6 :: w7 ::
        w8 :: w9 :: w10 :: w11 :: w12 :: w13 :: w14 :: w15 :: rest =>
      processBlocks
        (compress st [w0, w1, w2, w3, w4, w5, w6, w7, w8, w9, w10, w11, w12, w13, w14, w15])
        rest
  | st, _ => st

/-- Pack a big-endian byte stream into 32-bit words
(`words[i >> 2] |= j << (((3 - i) % 4) * 8)` in crypto.ts). -/
def wordsOfBytes : List Nat → List Nat
  | b0 :: b1 :: b2 :: b3 :: rest =>
      (b0 * 16777216 + b1 * 65536 + b2 * 256 + b3) :: wordsOfBytes rest
  | _ => []

/-- SHA-256 padding: append the 0x80 byte then zeros so that the byte
length is 56 mod 64 (the two 32-bit length words are appended separately,
as crypto.ts writes them directly into the word array). -/
def padMessage (msg : List Nat) : List Nat :=
  let padLen := (56 + 64 - (msg.length + 1) % 64) % 64
  msg ++ [128] ++ List.replicate padLen 0

/-- Lowercase hex digit. -/
def hexDigit (n : Nat) : Char :=
  if n < 10 then Char.ofNat (48 + n) else Char.ofNat (87 + n)

/-- Render one 32-bit word as 8 lowercase hex characters, most significant
byte first (the nested output loops of crypto.ts). -/
def wordHex (x : Nat) : String :=
  String.mk [hexDigit (x / 268435456 % 16), hexDigit (x / 16777216 % 16),
             hexDigit (x / 1048576 % 16), hexDigit (x / 65536 % 16),
             hexDigit (x / 4096 % 16), hexDigit (x / 256 % 16),
             hexDigit (x / 16 % 16), hexDigit (x % 16)]

/-- `SHA256` from crypto.ts: deterministic SHA-256 of an 8-bit string as a
64-character lowercase hex string.  crypto.ts returns `undefined` when a
character is outside 0..255 and every caller coerces that to `""` via
`|| ''`, so the embedding returns `""` there. -/
def SHA256 (s : String) : String :=
  let bytes := s.data.map Char.toNat
  if bytes.all (fun b => b < 256) then
    let bitLen := bytes.length * 8
    let words := wordsOfBytes (padMessage bytes) ++ [bitLen / M32 % M32, bitLen % M32]
    let st := processBlocks initHash words
    wordHex st.a ++ wordHex st.b ++ wordHex st.c ++ wordHex st.d ++
    wordHex st.e ++ wordHex st.f ++ wordHex st.g ++ wordHex st.h
  else ""

/-- FIPS 180-4 test vector: the embedding agrees with SHA-256 on "abc". -/
theorem sha256_abc :
    SHA256 "abc" = "ba7816bf8f01cfea414140de5dae2223b00361a396177a9cb410ff61f20015ad" := by
  decide

/-- FIPS 180-4 test vector: the empty string. -/
theorem sha256_empty :
    SHA256 "" = "e3b0c44298fc1c149afbf4c8996fb92427ae41e4649b934ca495991b7852b855" := by
  decide

/-! ## Data model (src/unnamed/part_000, TYPES section) -/

/-- `network_type` union. -/
inductive NetworkType where
  | WIFI
  | G4
  | G5
  | VPN
  | UNKNOWN
deriving DecidableEq, Repr

/-- `kyc_status` union. -/
inductive KycStatus where
  | VERIFIED
  | PENDING
  | FAILED
deriving DecidableEq, Repr

/-- `risk_category` union. -/
inductive RiskCategory where
  | LOW
  | MEDIUM
  | HIGH
deriving DecidableEq, Repr

/-- `account_status` union. -/
inductive AccountStatus where
  | ACTIVE
  | DORMANT
  | BLOCKED
deriving DecidableEq, Repr

/-- The three terminal decisions. -/
inductive Decision where
  | APPROVE
  | STEP_UP
  | BLOCK
deriving DecidableEq, Repr

/-- Decision as the string stored in ledger entries. -/
def Decision.toStr : Decision → String
  | .APPROVE => "APPROVE"
  | .STEP_UP => "STEP_UP"
  | .BLOCK => "BLOCK"

/-- The closed `ReasonCode` union. -/
inductive ReasonCode where
  | ERR_VELOCITY_LIMIT
  | ERR_GEO_IMPOSSIBLE
  | ERR_BEHAVIORAL_SHIFT
  | ERR_COORDINATED_ATTACK
  | ERR_ESCALATION_OVERRIDE
  | ERR_CHAIN_MISMATCH
  | ERR_BLOCKED_USER
  | OK
deriving DecidableEq, Repr

/-- The string token of a reason code (used for the `startsWith` matching
in `primaryReasonCode`). -/
def ReasonCode.token : ReasonCode → String
  | .ERR_VELOCITY_LIMIT => "ERR_VELOCITY_LIMIT"
  | .ERR_GEO_IMPOSSIBLE => "ERR_GEO_IMPOSSIBLE"
  | .ERR_BEHAVIORAL_SHIFT => "ERR_BEHAVIORAL_SHIFT"
  | .ERR_COORDINATED_ATTACK => "ERR_COORDINATED_ATTACK"
  | .ERR_ESCALATION_OVERRIDE => "ERR_ESCALATION_OVERRIDE"
  | .ERR_CHAIN_MISMATCH => "ERR_CHAIN_MISMATCH"
  | .ERR_BLOCKED_USER => "ERR_BLOCKED_USER"
  | .OK => "OK"

/-- `location` field of a transaction.  Latitude and longitude only feed
the abstract distance oracle, so they are carried as rationals. -/
structure Location where
  lat : Rat
  lon : Rat
  city : String
deriving DecidableEq, Repr

/-- `Transaction` (input, immutable).  Amounts and timestamps are the
non-negative integers the spec fixes for them. -/
structure Transaction where
  transaction_id : String
  user_id : String
  amount : Nat
  timestamp : Nat
  device_id : String
  ip_address : String
  location : Location
  merchant_id : String
  merchant_category : Option String
  network_type : NetworkType
  session_id : String
deriving DecidableEq, Repr

/-- `UserProfile` (input, treated as immutable per evaluation). -/
structure UserProfile where
  user_id : String
  registered_city : String
  registered_device_id : String
  avg_transaction_amount : Nat
  max_transaction_amount : Nat
  daily_transaction_limit : Nat
  avg_transactions_per_day : Nat
  kyc_status : KycStatus
  risk_category : RiskCategory
  account_status : AccountStatus
  usual_login_times : Nat × Nat
  last_login : Nat
  failed_attempts_last_10_min : Nat
deriving DecidableEq, Repr

/-- A single evaluator's output (`RiskResult`): the source's optional
`multiplier` is always set by the behavioral engine and absent elsewhere;
the aggregator only reads it off the behavioral result, so it is carried
as a plain rational defaulting to 1. -/
structure RiskResult where
  score : Nat
  reasoning : List String
  multiplier : Rat := 1
deriving DecidableEq, Repr

/-- The six per-evaluator clamped component scores. -/
structure ComponentScores where
  geo_risk : Nat
  velocity_risk : Nat
  device_risk : Nat
  amount_risk : Nat
  network_risk : Nat
  behavioral_risk : Nat
deriving DecidableEq, Repr

/-- `FinalRiskResult` (output record of `evaluate`). -/
structure FinalRiskResult where
  transaction_id : String
  user_id : String
  amount : Nat
  timestamp : Nat
  final_risk_score : Nat
  component_scores : ComponentScores
  decision : Decision
  reasoning : List String
  reason_code : ReasonCode
  processing_time_ms : Rat
  latency_breach : Bool
  coordinated_attack : Bool
  escalation_override : Bool
deriving DecidableEq, Repr

/-- `LedgerEntry`. -/
structure LedgerEntry where
  index : Nat
  transaction_id : String
  timestamp : Nat
  final_risk_score : Nat
  decision : String
  previous_hash : String
  current_hash : String
  data_hash : String
deriving DecidableEq, Repr

/-! ## Immutable ledger (src/src/engine/ImmutableLedger.ts)

The chain is the ledger's whole state; every operation is state passing on
`List LedgerEntry`.  `Date.now()` readings are passed as `ts` oracle
arguments, and the `data_hash` serialization `SHA256(JSON.stringify(result))`
is abstracted as a `dataHash` oracle (JSON float formatting is not part of
any hash that `verifyIntegrity` checks). -/

/-- `calculateHash`: SHA-256 of the template-string concatenation
`${index}${prevHash}${txId}${score}` (decimal rendering of the numbers). -/
def calculateHash (index : Nat) (prevHash : String) (txId : String) (score : Nat) : String :=
  SHA256 (toString index ++ prevHash ++ txId ++ toString score)

/-- The genesis block pushed by the constructor; `ts` is the `Date.now()`
reading.  Note the third `calculateHash` argument is the decision string
`"GENESIS"`, not the stored zero-UUID `transaction_id`. -/
def genesisEntry (ts : Nat) : LedgerEntry :=
  { index := 0
    transaction_id := "00000000-0000-0000-0000-000000000000"
    timestamp := ts
    final_risk_score := 0
    decision := "GENESIS"
    previous_hash := "0"
    current_hash := calculateHash 0 "0" "GENESIS" 0
    data_hash := "0" }

/-- A freshly constructed ledger: just the genesis block. -/
def freshChain (ts : Nat) : List LedgerEntry := [genesisEntry ts]

/-- The `chain[chain.length - 1]` access.  The chain is nonempty in every
reachable state (the constructor pushes genesis), so the `[]` default is
inert. -/
def lastEntry : List LedgerEntry → LedgerEntry
  | [] => genesisEntry 0
  | [e] => e
  | _ :: rest => lastEntry rest

/-- `addEntry` (plain append, no integrity pre-check).  `dataHash` is the
`SHA256(JSON.stringify(result))` oracle and `ts` the `Date.now()` reading. -/
def addEntry (dataHash : FinalRiskResult → String) (result : FinalRiskResult) (ts : Nat)
    (chain : List LedgerEntry) : LedgerEntry × List LedgerEntry :=
  let prev := lastEntry chain
  let index := chain.length
  let entry : LedgerEntry :=
    { index := index
      transaction_id := result.transaction_id
      timestamp := ts
      final_risk_score := result.final_risk_score
      decision := result.decision.toStr
      previous_hash := prev.current_hash
      data_hash := dataHash result
      current_hash := calculateHash index prev.current_hash result.transaction_id
        result.final_risk_score }
  (entry, chain ++ [entry])

/-- The loop body of `verifyIntegrity`, walking the chain with the
previous entry in hand: both the back-link and the recomputed hash are
checked for every entry after the first. -/
def verifyFrom : LedgerEntry → List LedgerEntry → Bool
  | _, [] => true
  | prev, cur :: rest =>
    if cur.previous_hash ≠ prev.current_hash then false
    else if cur.current_hash ≠
        calculateHash cur.index cur.previous_hash cur.transaction_id cur.final_risk_score then
      false
    else verifyFrom cur rest

/-- `verifyIntegrity`: the `for (let i = 1; ...)` walk starting at the
entry after genesis. -/
def verifyIntegrity : List LedgerEntry → Bool
  | [] => true
  | e :: rest => verifyFrom e rest

/-- `LedgerAddResult` union of `verifyAndAdd`. -/
inductive LedgerAddResult where
  | ok (entry : LedgerEntry)
  | err (reason : ReasonCode)
deriving DecidableEq, Repr

/-- `verifyAndAdd`: verify first; on a broken chain report
`ERR_CHAIN_MISMATCH` and leave the chain untouched, otherwise append. -/
def verifyAndAdd (dataHash : FinalRiskResult → String) (result : FinalRiskResult) (ts : Nat)
    (chain : List LedgerEntry) : LedgerAddResult × List LedgerEntry :=
  if verifyIntegrity chain then
    let r := addEntry dataHash result ts chain
    (.ok r.1, r.2)
  else
    (.err .ERR_CHAIN_MISMATCH, chain)

/-- `getLatestHash`. -/
def getLatestHash (chain : List LedgerEntry) : String :=
  (lastEntry chain).current_hash

/-- The chain obtained from a fresh ledger by a sequence of plain
`addEntry` calls, one per `(result, ts)` pair. -/
def buildChain (dataHash : FinalRiskResult → String) (t0 : Nat)
    (rs : List (FinalRiskResult × Nat)) : List LedgerEntry :=
  rs.foldl (fun c p => (addEntry dataHash p.1 p.2 c).2) (freshChain t0)

/-! ## Chain invariants -/

/-- The second ledger invariant of the spec, for one entry: the stored
`current_hash` is what `calculateHash` recomputes from the entry's own
stored fields. -/
def EntryHashOk (e : LedgerEntry) : Prop :=
  e.current_hash = calculateHash e.index e.previous_hash e.transaction_id e.final_risk_score

instance (e : LedgerEntry) : Decidable (EntryHashOk e) := by
  unfold EntryHashOk; infer_instance

/-- The tail of a chain is well linked after an entry `p`: back links, the
recomputed-hash invariant and index contiguity all hold. -/
def Linked : LedgerEntry → List LedgerEntry → Prop
  | _, [] => True
  | p, e :: rest =>
      e.previous_hash = p.current_hash ∧ EntryHashOk e ∧ e.index = p.index + 1 ∧ Linked e rest

/-- Reachable ledger states: a genesis head at index 0 with a well-linked
tail. -/
def ChainInv (c : List LedgerEntry) : Prop :=
  ∃ g rest, c = g :: rest ∧ g.index = 0 ∧ Linked g rest

theorem lastEntry_cons_cons (a b : LedgerEntry) (l : List LedgerEntry) :
    lastEntry (a :: b :: l) = lastEntry (b :: l) := rfl

theorem linked_lastEntry_index (p : LedgerEntry) (l : List LedgerEntry) (h : Linked p l) :
    (lastEntry (p :: l)).index = p.index + l.length := by
  induction l generalizing p with
  | nil => rfl
  | cons e rest ih =>
      obtain ⟨-, -, hidx, hl⟩ := h
      rw [lastEntry_cons_cons, ih e hl, hidx]
      simp only [List.length_cons]
      omega

theorem linked_snoc (p : LedgerEntry) (l : List LedgerEntry) (x : LedgerEntry)
    (h : Linked p l) (h1 : x.previous_hash = (lastEntry (p :: l)).current_hash)
    (h2 : EntryHashOk x) (h3 : x.index = (lastEntry (p :: l)).index + 1) :
    Linked p (l ++ [x]) := by
  induction l generalizing p with
  | nil => exact ⟨h1, h2, h3, trivial⟩
  | cons e rest ih =>
      obtain ⟨he1, he2, he3, hl⟩ := h
      exact ⟨he1, he2, he3, ih e hl h1 h3⟩

theorem verifyFrom_linked (p : LedgerEntry) (l : List LedgerEntry) (h : Linked p l) :
    verifyFrom p l = true := by
  induction l generalizing p with
  | nil => rfl
  | cons e rest ih =>
      obtain ⟨h1, h2, h3, hl⟩ := h
      have h2' : e.current_hash =
          calculateHash e.index e.previous_hash e.transaction_id e.final_risk_score := h2
      show (if _ then _ else if _ then _ else verifyFrom e rest) = true
      rw [if_neg (by simp [h1]), if_neg (by simp [h2'])]
      exact ih e hl

theorem linked_get_index (p : LedgerEntry) (l : List LedgerEntry) (h : Linked p l) :
    ∀ i (hi : i < l.length), (l.get ⟨i, hi⟩).index = p.index + i + 1 := by
  induction l generalizing p with
  | nil => intro i hi; exact absurd hi (Nat.not_lt_zero i)
  | cons e rest ih =>
      obtain ⟨-, -, h3, hl⟩ := h
      intro i hi
      match i with
      | 0 => exact h3
      | Nat.succ j =>
          have hj := ih e hl j (Nat.lt_of_succ_lt_succ hi)
          show (rest.get ⟨j, Nat.lt_of_succ_lt_succ hi⟩).index = p.index + (j + 1) + 1
          rw [hj, h3]
          omega

theorem linked_get_hashOk (p : LedgerEntry) (l : List LedgerEntry) (h : Linked p l) :
    ∀ i (hi : i < l.length), EntryHashOk (l.get ⟨i, hi⟩) := by
  induction l generalizing p with
  | nil => intro i hi; exact absurd hi (Nat.not_lt_zero i)
  | cons e rest ih =>
      obtain ⟨-, h2, -, hl⟩ := h
      intro i hi
      match i with
      | 0 => exact h2
      | Nat.succ j => exact ih e hl j (Nat.lt_of_succ_lt_succ hi)

theorem linked_get_link (p : LedgerEntry) (l : List LedgerEntry) (h : Linked p l) :
    ∀ i (hi : i + 1 < l.length),
      (l.get ⟨i + 1, hi⟩).previous_hash =
        (l.get ⟨i, Nat.lt_of_succ_lt hi⟩).current_hash := by
  induction l generalizing p with
  | nil => intro i hi; exact absurd hi (Nat.not_lt_zero _)
  | cons e rest ih =>
      intro i hi
      obtain ⟨-, -, -, hl⟩ := h
      match i with
      | 0 =>
          cases rest with
          | nil => simp at hi
          | cons f t =>
              obtain ⟨hf1, -, -, -⟩ := hl
              exact hf1
      | Nat.succ j => exact ih e hl j (Nat.lt_of_succ_lt_succ hi)

theorem chainInv_fresh (ts : Nat) : ChainInv (freshChain ts) :=
  ⟨genesisEntry ts, [], rfl, rfl, trivial⟩

theorem addEntry_length (dataHash : FinalRiskResult → String) (r : FinalRiskResult) (ts : Nat)
    (c : List LedgerEntry) : (addEntry dataHash r ts c).2.length = c.length + 1 := by
  simp [addEntry]

theorem addEntry_chain_eq (dataHash : FinalRiskResult → String) (r : FinalRiskResult) (ts : Nat)
    (c : List LedgerEntry) :
    (addEntry dataHash r ts c).2 = c ++ [(addEntry dataHash r ts c).1] := rfl

theorem chainInv_addEntry (dataHash : FinalRiskResult → String) (r : FinalRiskResult) (ts : Nat)
    (c : List LedgerEntry) (h : ChainInv c) : ChainInv (addEntry dataHash r ts c).2 := by
  obtain ⟨g, rest, rfl, hg, hl⟩ := h
  refine ⟨g, rest ++ [(addEntry dataHash r ts (g :: rest)).1], ?_, hg, ?_⟩
  · rfl
  · refine linked_snoc g rest _ hl rfl rfl ?_
    show (g :: rest).length = (lastEntry (g :: rest)).index + 1
    rw [linked_lastEntry_index g rest hl, hg]
    simp

theorem chainInv_foldl (dataHash : FinalRiskResult → String)
    (rs : List (FinalRiskResult × Nat)) :
    ∀ c, ChainInv c →
      ChainInv (rs.foldl (fun c p => (addEntry dataHash p.1 p.2 c).2) c) ∧
      (rs.foldl (fun c p => (addEntry dataHash p.1 p.2 c).2) c).length = c.length + rs.length := by
  induction rs with
  | nil => intro c hc; exact ⟨hc, rfl⟩
  | cons p rest ih =>
      intro c hc
      have step := chainInv_addEntry dataHash p.1 p.2 c hc
      obtain ⟨h1, h2⟩ := ih _ step
      constructor
      · rw [List.foldl_cons]
        exact h1
      · rw [List.foldl_cons, h2, addEntry_length, List.length_cons]
        omega

theorem chainInv_buildChain (dataHash : FinalRiskResult → String) (t0 : Nat)
    (rs : List (FinalRiskResult × Nat)) : ChainInv (buildChain dataHash t0 rs) :=
  (chainInv_foldl dataHash rs (freshChain t0) (chainInv_fresh t0)).1

theorem buildChain_length (dataHash : FinalRiskResult → String) (t0 : Nat)
    (rs : List (FinalRiskResult × Nat)) :
    (buildChain dataHash t0 rs).length = rs.length + 1 := by
  have := (chainInv_foldl dataHash rs (freshChain t0) (chainInv_fresh t0)).2
  simpa [buildChain, freshChain, Nat.add_comm] using this

theorem chainInv_get_index (c : List LedgerEntry) (h : ChainInv c) :
    ∀ i (hi : i < c.length), (c.get ⟨i, hi⟩).index = i := by
  obtain ⟨g, rest, rfl, hg, hl⟩ := h
  intro i hi
  match i with
  | 0 => exact hg
  | Nat.succ j =>
      have := linked_get_index g rest hl j (Nat.lt_of_succ_lt_succ hi)
      simpa [List.get, hg] using this

theorem chainInv_get_link (c : List LedgerEntry) (h : ChainInv c) :
    ∀ i (hi : i + 1 < c.length),
      (c.get ⟨i + 1, hi⟩).previous_hash =
        (c.get ⟨i, Nat.lt_of_succ_lt hi⟩).current_hash := by
  obtain ⟨g, rest, rfl, hg, hl⟩ := h
  intro i hi
  match i with
  | 0 =>
      cases rest with
      | nil => simp at hi
      | cons f t =>
          obtain ⟨hf1, -, -, -⟩ := hl
          exact hf1
  | Nat.succ j => exact linked_get_link g rest hl j (Nat.lt_of_succ_lt_succ hi)

theorem chainInv_verifyIntegrity (c : List LedgerEntry) (h : ChainInv c) :
    verifyIntegrity c = true := by
  obtain ⟨g, rest, rfl, -, hl⟩ := h
  exact verifyFrom_linked g rest hl

theorem chainInv_get_hashOk (c : List LedgerEntry) (h : ChainInv c) :
    ∀ i (hi : i < c.length), 0 < i → EntryHashOk (c.get ⟨i, hi⟩) := by
  obtain ⟨g, rest, rfl, -, hl⟩ := h
  intro i hi hpos
  match i, hpos with
  | Nat.succ j, _ => exact linked_get_hashOk g rest hl j (Nat.lt_of_succ_lt_succ hi)

/-! ## Claim theorems for the ledger -/

/-- Claim C3: after any sequence of N plain `addEntry` calls on a freshly
constructed ledger, the chain has N+1 entries with contiguous indices
0..N, every entry after the first back-links to its predecessor's
`current_hash`, and `verifyIntegrity` returns `true`. -/
theorem claim_C3_addEntry_chain (dataHash : FinalRiskResult → String) (t0 : Nat)
    (rs : List (FinalRiskResult × Nat)) :
    (buildChain dataHash t0 rs).length = rs.length + 1 ∧
    (∀ i (hi : i < (buildChain dataHash t0 rs).length),
      ((buildChain dataHash t0 rs).get ⟨i, hi⟩).index = i) ∧
    (∀ i (hi : i + 1 < (buildChain dataHash t0 rs).length),
      ((buildChain dataHash t0 rs).get ⟨i + 1, hi⟩).previous_hash =
        ((buildChain dataHash t0 rs).get ⟨i, Nat.lt_of_succ_lt hi⟩).current_hash) ∧
    verifyIntegrity (buildChain dataHash t0 rs) = true :=
  ⟨buildChain_length dataHash t0 rs,
   chainInv_get_index _ (chainInv_buildChain dataHash t0 rs),
   chainInv_get_link _ (chainInv_buildChain dataHash t0 rs),
   chainInv_verifyIntegrity _ (chainInv_buildChain dataHash t0 rs)⟩

/-- Claim C4: `verifyAndAdd` returns `ERR_CHAIN_MISMATCH` and leaves the
chain completely unchanged whenever `verifyIntegrity` is false, and
otherwise appends exactly one entry (the `addEntry` entry) and returns
it; it never appends on a broken chain. -/
theorem claim_C4_verifyAndAdd (dataHash : FinalRiskResult → String) (r : FinalRiskResult)
    (ts : Nat) (c : List LedgerEntry) :
    (verifyIntegrity c = false →
      verifyAndAdd dataHash r ts c = (.err .ERR_CHAIN_MISMATCH, c)) ∧
    (verifyIntegrity c = true →
      verifyAndAdd dataHash r ts c =
        (.ok (addEntry dataHash r ts c).1, c ++ [(addEntry dataHash r ts c).1])) := by
  constructor
  · intro h
    simp [verifyAndAdd, h]
  · intro h
    simp [verifyAndAdd, h, addEntry_chain_eq]

/-- Concrete data-hash oracle used by witnesses. -/
def dataHashW : FinalRiskResult → String := fun _ => "dh"

/-- Concrete result record used by witnesses. -/
def txResultW : FinalRiskResult :=
  { transaction_id := "tx-1"
    user_id := "u1"
    amount := 10
    timestamp := 0
    final_risk_score := 0
    component_scores := ⟨0, 0, 0, 0, 0, 0⟩
    decision := .APPROVE
    reasoning := []
    reason_code := .OK
    processing_time_ms := 0
    latency_breach := false
    coordinated_attack := false
    escalation_override := false }

/-- A two-entry chain whose second entry has had `final_risk_score`
mutated in place (the S6 tamper scenario). -/
def tamperedChainW : List LedgerEntry :=
  [genesisEntry 0,
   { (addEntry dataHashW txResultW 0 (freshChain 0)).1 with final_risk_score := 99 }]

/-- Witness for C4: on the concrete tampered chain `verifyAndAdd` reports
the mismatch and leaves the chain unchanged; on the intact fresh chain it
appends exactly the `addEntry` entry. -/
theorem claim_C4_verifyAndAdd_witness :
    verifyAndAdd dataHashW txResultW 5 tamperedChainW =
      (.err .ERR_CHAIN_MISMATCH, tamperedChainW) ∧
    verifyAndAdd dataHashW txResultW 5 (freshChain 0) =
      (.ok (addEntry dataHashW txResultW 5 (freshChain 0)).1,
       freshChain 0 ++ [(addEntry dataHashW txResultW 5 (freshChain 0)).1]) :=
  ⟨(claim_C4_verifyAndAdd dataHashW txResultW 5 tamperedChainW).1 (by decide),
   (claim_C4_verifyAndAdd dataHashW txResultW 5 (freshChain 0)).2 (by decide)⟩

/-- Witness for C3: a concrete one-append ledger has two entries with
indices 0 and 1, a correct back link, and a passing integrity check. -/
theorem claim_C3_addEntry_chain_witness :
    (buildChain dataHashW 7 [(txResultW, 9)]).length = 2 ∧
    ((buildChain dataHashW 7 [(txResultW, 9)]).get ⟨1, by decide⟩).index = 1 ∧
    ((buildChain dataHashW 7 [(txResultW, 9)]).get ⟨1, by decide⟩).previous_hash =
      ((buildChain dataHashW 7 [(txResultW, 9)]).get ⟨0, by decide⟩).current_hash ∧
    verifyIntegrity (buildChain dataHashW 7 [(txResultW, 9)]) = true :=
  ⟨(claim_C3_addEntry_chain dataHashW 7 [(txResultW, 9)]).1,
   (claim_C3_addEntry_chain dataHashW 7 [(txResultW, 9)]).2.1 1 (by decide),
   (claim_C3_addEntry_chain dataHashW 7 [(txResultW, 9)]).2.2.1 0 (by decide),
   (claim_C3_addEntry_chain dataHashW 7 [(txResultW, 9)]).2.2.2⟩

/-- Claim C5 fails at the genesis entry: the constructor computes the
genesis `current_hash` from the decision string `"GENESIS"` where the
chain-hash invariant would use the stored `transaction_id` (the zero
UUID), so recomputing the hash from the entry's own stored fields does
not yield the stored `current_hash` at index 0. -/
theorem claim_C5_counterexample :
    genesisEntry 0 ∈ freshChain 0 ∧
    ¬ ((genesisEntry 0).current_hash =
        calculateHash (genesisEntry 0).index (genesisEntry 0).previous_hash
          (genesisEntry 0).transaction_id (genesisEntry 0).final_risk_score) := by
  refine ⟨List.mem_singleton.mpr rfl, ?_⟩
  decide

/-- Claim C5 (amended): for every entry at position i > 0 of a ledger
built by plain appends, recomputing the hash from the entry's own stored
(index, previous_hash, transaction_id, final_risk_score) yields the
stored `current_hash`; the genesis entry at index 0 instead hashes the
decision string `"GENESIS"` in place of its stored transaction_id. -/
theorem claim_C5_recompute_hash (dataHash : FinalRiskResult → String) (t0 : Nat)
    (rs : List (FinalRiskResult × Nat)) :
    ∀ i (hi : i < (buildChain dataHash t0 rs).length), 0 < i →
      ((buildChain dataHash t0 rs).get ⟨i, hi⟩).current_hash =
        calculateHash ((buildChain dataHash t0 rs).get ⟨i, hi⟩).index
          ((buildChain dataHash t0 rs).get ⟨i, hi⟩).previous_hash
          ((buildChain dataHash t0 rs).get ⟨i, hi⟩).transaction_id
          ((buildChain dataHash t0 rs).get ⟨i, hi⟩).final_risk_score := by
  intro i hi hpos
  exact chainInv_get_hashOk _ (chainInv_buildChain dataHash t0 rs) i hi hpos

/-- Witness for the amended C5: the first appended entry of a concrete
one-append ledger satisfies the recomputation equation. -/
theorem claim_C5_recompute_hash_witness :
    ((buildChain dataHashW 0 [(txResultW, 0)]).get ⟨1, by decide⟩).current_hash =
      calculateHash ((buildChain dataHashW 0 [(txResultW, 0)]).get ⟨1, by decide⟩).index
        ((buildChain dataHashW 0 [(txResultW, 0)]).get ⟨1, by decide⟩).previous_hash
        ((buildChain dataHashW 0 [(txResultW, 0)]).get ⟨1, by decide⟩).transaction_id
        ((buildChain dataHashW 0 [(txResultW, 0)]).get ⟨1, by decide⟩).final_risk_score :=
  claim_C5_recompute_hash dataHashW 0 [(txResultW, 0)] 1 (by decide) (by decide)

/-! ## Engine constants (src/unnamed/part_000, CONSTANTS section) -/

def THRESHOLD_PASS : Nat := 40

def THRESHOLD_BLOCK : Nat := 70

/-- 800 km/h impossible-travel speed. -/
def MAX_SPEED_KMH : Rat := 800

def MAX_LATENCY_MS : Rat := 200

def LATENCY_WINDOW : Nat := 10

def COORD_WINDOW_MS : Int := 120000

def COORD_MIN_USERS : Nat := 5

/-- 0.05, exactly 1/20. -/
def COORD_AMOUNT_VARIANCE : Rat := 5 / 100

def ESC_WINDOW_MS : Int := 900000

def ESC_MIN_STEPUPS : Nat := 3

def ESC_RISK_THRESH : Nat := 60

/-- `clamp(v, min, max) = Math.min(max, Math.max(min, v))` on the integer
scores. -/
def clamp (v lo hi : Nat) : Nat := min hi (max lo v)

/-! ## Rolling latency buffer -/

/-- `record`: push, evicting the oldest sample past the window. -/
def RollingLatencyBuffer.record (buf : List Rat) (ms : Rat) : List Rat :=
  let b := buf ++ [ms]
  if LATENCY_WINDOW < b.length then b.drop 1 else b

/-- `average`: arithmetic mean, or 0 when empty. -/
def RollingLatencyBuffer.average (buf : List Rat) : Rat :=
  if buf.length = 0 then 0 else buf.sum / (buf.length : Rat)

/-- `isBreach`: rolling average above the 200 ms budget. -/
def RollingLatencyBuffer.isBreach (buf : List Rat) : Bool :=
  decide (MAX_LATENCY_MS < RollingLatencyBuffer.average buf)

/-! ## Coordinated attack detector -/

/-- `CoordEvent`. -/
structure CoordEvent where
  user_id : String
  merchant_category : String
  amount : Nat
  timestamp : Nat
deriving DecidableEq, Repr

/-- `tx.merchant_category ?? tx.merchant_id`. -/
def merchantCategoryOf (tx : Transaction) : String :=
  tx.merchant_category.getD tx.merchant_id

/-- `record(tx)`: prune events older than the 2-minute window (relative to
`tx.timestamp`, which the source binds as `now`), append the event of the
current transaction, and hard-cap at the 5000 most recent events
(`slice(-5000)`). -/
def CoordinatedAttackDetector.record (tx : Transaction) (events : List CoordEvent) :
    List CoordEvent :=
  let pruned := events.filter
    (fun e => decide ((tx.timestamp : Int) - (e.timestamp : Int) ≤ COORD_WINDOW_MS))
  let appended := pruned ++ [⟨tx.user_id, merchantCategoryOf tx, tx.amount, tx.timestamp⟩]
  if 5000 < appended.length then appended.drop (appended.length - 5000) else appended

/-- `detect(tx)`: the in-window events with the same merchant category and
amount within the inclusive \xb15% band contain at least 5 distinct
user_ids.  `tx.amount * (1 - 0.05)` and `tx.amount * (1 + 0.05)` are
exact in rationals for the integer amounts of the data model. -/
def CoordinatedAttackDetector.detect (tx : Transaction) (events : List CoordEvent) : Bool :=
  let window := events.filter
    (fun e => decide ((tx.timestamp : Int) - (e.timestamp : Int) ≤ COORD_WINDOW_MS))
  let amtLow : Rat := (tx.amount : Rat) * (1 - COORD_AMOUNT_VARIANCE)
  let amtHigh : Rat := (tx.amount : Rat) * (1 + COORD_AMOUNT_VARIANCE)
  let cluster := window.filter
    (fun e => decide (e.merchant_category = merchantCategoryOf tx) &&
      decide (amtLow ≤ (e.amount : Rat)) && decide ((e.amount : Rat) ≤ amtHigh))
  decide (COORD_MIN_USERS ≤ (cluster.map (fun e => e.user_id)).dedup.length)

/-! ## Progressive escalation tracker -/

/-- Per-user step-up timestamp lists; the `Map` with its implicit empty
default is a total function from user ids. -/
abbrev EscalationTracker : Type := String → List Nat

/-- `recordStepUp`: prune the user's timestamps to the 15-minute window
ending at `ts`, then push `ts`. -/
def EscalationTracker.recordStepUp (st : EscalationTracker) (userId : String) (ts : Nat) :
    EscalationTracker :=
  fun u =>
    if u = userId then
      (st userId).filter (fun (t : Nat) => decide ((ts : Int) - ESC_WINDOW_MS < (t : Int))) ++ [ts]
    else st u

/-- `recordBlock`: clear the user's list. -/
def EscalationTracker.recordBlock (st : EscalationTracker) (userId : String) :
    EscalationTracker :=
  fun u => if u = userId then [] else st u

/-- `shouldForceBlock(user, score, ts)`: at least 3 step-ups within the
last 15 minutes and score at least 60. -/
def EscalationTracker.shouldForceBlock (st : EscalationTracker) (userId : String)
    (currentScore : Nat) (ts : Nat) : Bool :=
  decide (ESC_MIN_STEPUPS ≤
      ((st userId).filter
        (fun (t : Nat) => decide ((ts : Int) - ESC_WINDOW_MS < (t : Int)))).length) &&
  decide (ESC_RISK_THRESH ≤ currentScore)

/-! ## The six risk evaluators -/

/-- `GeoRiskEngine.evaluate` — ceiling 65.  The Haversine distance (float
trigonometry) is the abstract oracle `dist`; the +10 city-mismatch and
+55 impossible-travel rules and the clamp are embedded exactly.  The
numeric payloads interpolated into the reason strings are omitted; the
`ReasonCode: ` prefixes that `primaryReasonCode` matches on are exact. -/
def GeoRiskEngine.evaluate (dist : Location → Location → Rat) (tx : Transaction)
    (profile : UserProfile) (lastTx : Option Transaction) : RiskResult :=
  let cityMismatch := tx.location.city ≠ profile.registered_city
  let s1 : Nat := if cityMismatch then 10 else 0
  let r1 : List String := if cityMismatch then ["ERR_GEO_IMPOSSIBLE: Location mismatch"] else []
  match lastTx with
  | none => { score := clamp s1 0 65, reasoning := r1 }
  | some l =>
      let d := dist l.location tx.location
      let diffHrs : Rat := ((tx.timestamp : Rat) - (l.timestamp : Rat)) / 3600000
      if 0 < diffHrs ∧ MAX_SPEED_KMH < d / diffHrs then
        { score := clamp (s1 + 55) 0 65
          reasoning := r1 ++ ["ERR_GEO_IMPOSSIBLE: Impossible travel"] }
      else
        { score := clamp s1 0 65, reasoning := r1 }

/-- `VelocityRiskEngine.evaluate` — ceiling 65. -/
def VelocityRiskEngine.evaluate (tx : Transaction) (recentTxns : List Transaction)
    (profile : UserProfile) : RiskResult :=
  let tenMinsAgo : Int := (tx.timestamp : Int) - 600000
  let recentCount :=
    (recentTxns.filter (fun t => decide (tenMinsAgo < (t.timestamp : Int)))).length
  let s1 : Nat := if 5 < recentCount then 30 else 0
  let r1 : List String :=
    if 5 < recentCount then ["ERR_VELOCITY_LIMIT: transactions in last 10 min"] else []
  let spamCount :=
    (recentTxns.filter (fun t =>
      decide (tenMinsAgo < (t.timestamp : Int)) && decide (t.amount = 1))).length
  let spam := tx.amount = 1 ∧ 3 < spamCount
  let s2 : Nat := if spam then 30 else 0
  let r2 : List String := if spam then ["ERR_VELOCITY_LIMIT: 1-rupee spam burst detected"] else []
  let failed := 3 < profile.failed_attempts_last_10_min
  let s3 : Nat := if failed then 35 else 0
  let r3 : List String := if failed then ["ERR_VELOCITY_LIMIT: failed attempts in 10 min"] else []
  { score := clamp (s1 + s2 + s3) 0 65, reasoning := r1 ++ r2 ++ r3 }

/-- `DeviceRiskEngine.evaluate` — ceiling 55. -/
def DeviceRiskEngine.evaluate (tx : Transaction) (profile : UserProfile)
    (distinctDevicesLast5Min : Nat) : RiskResult :=
  let newDevice := tx.device_id ≠ profile.registered_device_id
  let s1 : Nat := if newDevice then 25 else 0
  let r1 : List String := if newDevice then ["ERR_BEHAVIORAL_SHIFT: Unregistered device"] else []
  let switching := 1 < distinctDevicesLast5Min
  let s2 : Nat := if switching then 30 else 0
  let r2 : List String := if switching then ["ERR_BEHAVIORAL_SHIFT: Device switching"] else []
  { score := clamp (s1 + s2) 0 55, reasoning := r1 ++ r2 }

/-- `AmountRiskEngine.evaluate` — ceiling 75, mutually exclusive
`if / else if / else if` tiers. -/
def AmountRiskEngine.evaluate (tx : Transaction) (profile : UserProfile) : RiskResult :=
  if profile.max_transaction_amount < tx.amount then
    { score := clamp 75 0 75, reasoning := ["ERR_VELOCITY_LIMIT: Amount exceeds max"] }
  else if profile.daily_transaction_limit < tx.amount then
    { score := clamp 45 0 75, reasoning := ["ERR_VELOCITY_LIMIT: Exceeds daily transaction limit"] }
  else if profile.avg_transaction_amount * 3 < tx.amount then
    { score := clamp 20 0 75, reasoning := ["ERR_BEHAVIORAL_SHIFT: Amount spike"] }
  else
    { score := clamp 0 0 75, reasoning := [] }

/-- `NetworkSessionRiskEngine.evaluate` — ceiling 30. -/
def NetworkSessionRiskEngine.evaluate (tx : Transaction) : RiskResult :=
  let vpn := tx.network_type = NetworkType.VPN
  let s1 : Nat := if vpn then 20 else 0
  let r1 : List String := if vpn then ["ERR_BEHAVIORAL_SHIFT: VPN detected"] else []
  let unknown := tx.network_type = NetworkType.UNKNOWN
  let s2 : Nat := if unknown then 10 else 0
  let r2 : List String := if unknown then ["ERR_BEHAVIORAL_SHIFT: Unknown network type"] else []
  { score := clamp (s1 + s2) 0 30, reasoning := r1 ++ r2 }

/-- `new Date(ts).getHours()` with the timezone pinned to UTC, which the
spec mandates for test determinism (spec section 8). -/
def hourOfTimestamp (ts : Nat) : Nat := ts / 3600000 % 24

/-- `BehavioralRiskEngine.evaluate` — ceiling 65 plus the risk-category
multiplier.  1.1 and 1.2 are carried exactly as 11/10 and 6/5: for the
score range reachable here the IEEE-double `Math.floor(score * m)` of the
source coincides with the rational floor. -/
def BehavioralRiskEngine.evaluate (tx : Transaction) (profile : UserProfile) : RiskResult :=
  let hour := hourOfTimestamp tx.timestamp
  let unusual := hour < profile.usual_login_times.1 ∨ profile.usual_login_times.2 < hour
  let s1 : Nat := if unusual then 10 else 0
  let r1 : List String :=
    if unusual then ["ERR_BEHAVIORAL_SHIFT: Transaction at unusual hour"] else []
  let dormant := profile.account_status = AccountStatus.DORMANT
  let s2 : Nat := if dormant then 45 else 0
  let r2 : List String := if dormant then ["ERR_BEHAVIORAL_SHIFT: Dormant account activation"] else []
  let s3 : Nat :=
    if profile.kyc_status = KycStatus.FAILED then 35
    else if profile.kyc_status = KycStatus.PENDING then 10
    else 0
  let r3 : List String :=
    if profile.kyc_status = KycStatus.FAILED then ["ERR_BEHAVIORAL_SHIFT: KYC failed"]
    else if profile.kyc_status = KycStatus.PENDING then ["ERR_BEHAVIORAL_SHIFT: KYC pending"]
    else []
  let m : Rat :=
    if profile.risk_category = RiskCategory.HIGH then 6 / 5
    else if profile.risk_category = RiskCategory.MEDIUM then 11 / 10
    else 1
  let r4 : List String :=
    if profile.risk_category = RiskCategory.HIGH then ["High-risk user profile (1.2x multiplier)"]
    else if profile.risk_category = RiskCategory.MEDIUM then
      ["Medium-risk user profile (1.1x multiplier)"]
    else []
  { score := clamp (s1 + s2 + s3) 0 65, reasoning := r1 ++ r2 ++ r3 ++ r4, multiplier := m }

/-! ## Sentinel engine (aggregator) -/

/-- All mutable state of a `SentinelEngine` instance. -/
structure EngineState where
  history : List Transaction
  coordEvents : List CoordEvent
  esc : EscalationTracker
  latency : List Rat

/-- A freshly constructed engine. -/
def SentinelEngine.initState : EngineState :=
  { history := [], coordEvents := [], esc := fun _ => [], latency := [] }

/-- The priority order of `primaryReasonCode`. -/
def reasonPriority : List ReasonCode :=
  [.ERR_CHAIN_MISMATCH, .ERR_ESCALATION_OVERRIDE, .ERR_COORDINATED_ATTACK,
   .ERR_GEO_IMPOSSIBLE, .ERR_VELOCITY_LIMIT, .ERR_BEHAVIORAL_SHIFT]

/-- Character-list prefix test: `r.startsWith(code)` of the source,
stated over the character lists so that proofs can evaluate it. -/
def charsStartWith : List Char → List Char → Bool
  | [], _ => true
  | _ :: _, [] => false
  | p :: ps, c :: cs => p == c && charsStartWith ps cs

/-- `primaryReasonCode(reasons)`: the first code in priority order that
some reason string starts with, else OK. -/
def primaryReasonCode (reasons : List String) : ReasonCode :=
  match reasonPriority.find? (fun code => reasons.any
      (fun r => charsStartWith code.token.data r.data)) with
  | some code => code
  | none => .OK

/-- `SentinelEngine.secondaryCheck` (the pre-OTP gate): `true` means the
STEP_UP may be issued.  The source takes the profile but never reads it
(`_profile`).  Note `shouldForceBlock` is consulted with the constant
`THRESHOLD_BLOCK`, not the current score. -/
def SentinelEngine.secondaryCheck (tx : Transaction) (history : List Transaction)
    (coordEvents : List CoordEvent) (esc : EscalationTracker) : Bool :=
  let tenMinsAgo : Int := (tx.timestamp : Int) - 600000
  let fiveMinsAgo : Int := (tx.timestamp : Int) - 300000
  let userHistory := history.filter (fun t => decide (t.user_id = tx.user_id))
  let recentCount :=
    (userHistory.filter (fun t => decide (tenMinsAgo < (t.timestamp : Int)))).length
  let recentDevices :=
    ((userHistory.filter (fun t => decide (fiveMinsAgo < (t.timestamp : Int)))).map
      (fun t => t.device_id) ++ [tx.device_id]).dedup
  let velocityFail := decide (8 < recentCount)
  let deviceFail := decide (2 < recentDevices.length)
  let coordFail := CoordinatedAttackDetector.detect tx coordEvents
  let escalationFail :=
    EscalationTracker.shouldForceBlock esc tx.user_id THRESHOLD_BLOCK tx.timestamp
  !(velocityFail || deviceFail || coordFail || escalationFail)

/-- The pre-decision numbers of one `evaluate` call on a non-blocked
account: component scores, multiplier and coordination amplification,
global clamp, and the accumulated reason strings. -/
structure PipelineOut where
  comps : ComponentScores
  coordinated : Bool
  finalScore : Nat
  reasons : List String
deriving Repr

/-- Lines 507-552 of the engine: context gathering, the six evaluators,
the behavioral multiplier (`Math.floor(baseScore * m)` when m > 1), the
record-then-detect coordination amplification (`Math.floor(base * 1.25)`
= `base * 5 / 4` on integers), the clamp to [0,100], and the reason
accumulation. -/
def SentinelEngine.scorePipeline (dist : Location → Location → Rat) (tx : Transaction)
    (profile : UserProfile) (s : EngineState) : PipelineOut :=
  let userHistory := s.history.filter (fun t => decide (t.user_id = tx.user_id))
  let lastTx := userHistory.getLast?
  let fiveMinsAgo : Int := (tx.timestamp : Int) - 300000
  let recentDevices :=
    ((userHistory.filter (fun t => decide (fiveMinsAgo < (t.timestamp : Int)))).map
      (fun t => t.device_id) ++ [tx.device_id]).dedup
  let geo := GeoRiskEngine.evaluate dist tx profile lastTx
  let velocity := VelocityRiskEngine.evaluate tx userHistory profile
  let device := DeviceRiskEngine.evaluate tx profile recentDevices.length
  let amount := AmountRiskEngine.evaluate tx profile
  let network := NetworkSessionRiskEngine.evaluate tx
  let behav := BehavioralRiskEngine.evaluate tx profile
  let base0 := geo.score + velocity.score + device.score + amount.score +
    network.score + behav.score
  let base1 :=
    if 1 < behav.multiplier then (((base0 : Rat) * behav.multiplier).floor).toNat else base0
  let coordinated :=
    CoordinatedAttackDetector.detect tx (CoordinatedAttackDetector.record tx s.coordEvents)
  let base2 := if coordinated then base1 * 5 / 4 else base1
  let finalScore := clamp base2 0 100
  let allReasons := geo.reasoning ++ velocity.reasoning ++ device.reasoning ++
    amount.reasoning ++ network.reasoning ++ behav.reasoning ++
    (if coordinated then ["ERR_COORDINATED_ATTACK: Coordinated cluster detected"] else [])
  { comps :=
      { geo_risk := geo.score, velocity_risk := velocity.score, device_risk := device.score,
        amount_risk := amount.score, network_risk := network.score,
        behavioral_risk := behav.score }
    coordinated := coordinated
    finalScore := finalScore
    reasons := allReasons }

/-- The decision block's outputs. -/
structure DecisionOut where
  decision : Decision
  reason_code : ReasonCode
  escalation_override : Bool
  finalScore : Nat
  reasons : List String
deriving Repr

/-- Lines 554-581 of the engine: the threshold mapping with the
escalation override and the secondary pre-OTP check. -/
def SentinelEngine.decisionStep (tx : Transaction) (history : List Transaction)
    (coordEvents : List CoordEvent) (esc : EscalationTracker)
    (coordinated : Bool) (finalScore : Nat) (allReasons : List String) : DecisionOut :=
  if THRESHOLD_BLOCK ≤ finalScore then
    { decision := .BLOCK
      reason_code := if coordinated then .ERR_COORDINATED_ATTACK else primaryReasonCode allReasons
      escalation_override := false
      finalScore := finalScore
      reasons := allReasons }
  else if THRESHOLD_PASS ≤ finalScore then
    if EscalationTracker.shouldForceBlock esc tx.user_id finalScore tx.timestamp then
      { decision := .BLOCK
        reason_code := .ERR_ESCALATION_OVERRIDE
        escalation_override := true
        finalScore := max finalScore 70
        reasons := allReasons ++ ["ERR_ESCALATION_OVERRIDE: repeated challenges forced BLOCK"] }
    else if SentinelEngine.secondaryCheck tx history coordEvents esc then
      { decision := .STEP_UP
        reason_code := primaryReasonCode allReasons
        escalation_override := false
        finalScore := finalScore
        reasons := allReasons }
    else
      { decision := .BLOCK
        reason_code := primaryReasonCode allReasons
        escalation_override := false
        finalScore := finalScore
        reasons := allReasons }
  else
    { decision := .APPROVE
      reason_code := .OK
      escalation_override := false
      finalScore := finalScore
      reasons := allReasons }

/-- Lines 583-585 of the engine: `STEP_UP` records a step-up, `BLOCK`
clears the user's list, `APPROVE` leaves the tracker alone. -/
def SentinelEngine.escUpdate (esc : EscalationTracker) (userId : String) (ts : Nat)
    (d : Decision) : EscalationTracker :=
  if d = Decision.STEP_UP then EscalationTracker.recordStepUp esc userId ts
  else if d = Decision.BLOCK then EscalationTracker.recordBlock esc userId
  else esc

/-- The decision block's output within one `evaluate` call as a function
of the call's inputs: the `d` binding of the active path, with the three
pipeline outputs and the post-record coordination events in place. -/
def SentinelEngine.decisionOf (dist : Location → Location → Rat) (tx : Transaction)
    (profile : UserProfile) (s : EngineState) : DecisionOut :=
  SentinelEngine.decisionStep tx s.history (CoordinatedAttackDetector.record tx s.coordEvents)
    s.esc (SentinelEngine.scorePipeline dist tx profile s).coordinated
    (SentinelEngine.scorePipeline dist tx profile s).finalScore
    (SentinelEngine.scorePipeline dist tx profile s).reasons

/-- The history append with the 1000 cap (`slice(-1000)`). -/
def SentinelEngine.historyUpdate (history : List Transaction) (tx : Transaction) :
    List Transaction :=
  let history0 := history ++ [tx]
  if 1000 < history0.length then history0.drop (history0.length - 1000) else history0

/-- The non-blocked path of `evaluate`: score pipeline, decision block
(`decisionOf`), escalation-tracker update, history append with the 1000
cap, latency record, and result assembly. -/
def SentinelEngine.evaluateActive (dist : Location → Location → Rat) (tx : Transaction)
    (profile : UserProfile) (s : EngineState) (ms : Rat) : FinalRiskResult × EngineState :=
  ({ transaction_id := tx.transaction_id
     user_id := tx.user_id
     amount := tx.amount
     timestamp := tx.timestamp
     final_risk_score := (SentinelEngine.decisionOf dist tx profile s).finalScore
     component_scores := (SentinelEngine.scorePipeline dist tx profile s).comps
     decision := (SentinelEngine.decisionOf dist tx profile s).decision
     reasoning := (SentinelEngine.decisionOf dist tx profile s).reasons
     reason_code := (SentinelEngine.decisionOf dist tx profile s).reason_code
     processing_time_ms := ms
     latency_breach := RollingLatencyBuffer.isBreach (RollingLatencyBuffer.record s.latency ms)
     coordinated_attack := (SentinelEngine.scorePipeline dist tx profile s).coordinated
     escalation_override := (SentinelEngine.decisionOf dist tx profile s).escalation_override },
   { history := SentinelEngine.historyUpdate s.history tx
     coordEvents := CoordinatedAttackDetector.record tx s.coordEvents
     esc := SentinelEngine.escUpdate s.esc tx.user_id tx.timestamp
       (SentinelEngine.decisionOf dist tx profile s).decision
     latency := RollingLatencyBuffer.record s.latency ms })

/-- `SentinelEngine.evaluate(tx, profile)`: the blocked-account
short-circuit, else the active path.  `ms` is the measured
`performance.now()` duration oracle. -/
def SentinelEngine.evaluate (dist : Location → Location → Rat) (tx : Transaction)
    (profile : UserProfile) (s : EngineState) (ms : Rat) : FinalRiskResult × EngineState :=
  if profile.account_status = AccountStatus.BLOCKED then
    let lat' := RollingLatencyBuffer.record s.latency ms
    ({ transaction_id := tx.transaction_id
       user_id := tx.user_id
       amount := tx.amount
       timestamp := tx.timestamp
       final_risk_score := 100
       component_scores := ⟨0, 0, 0, 0, 0, 0⟩
       decision := .BLOCK
       reasoning := ["ERR_BLOCKED_USER: Account is permanently blocked"]
       reason_code := .ERR_BLOCKED_USER
       processing_time_ms := ms
       latency_breach := RollingLatencyBuffer.isBreach lat'
       coordinated_attack := false
       escalation_override := false },
     { s with latency := lat' })
  else
    SentinelEngine.evaluateActive dist tx profile s ms

/-- `getHistory(userId)`. -/
def SentinelEngine.getHistory (userId : String) (s : EngineState) : List Transaction :=
  s.history.filter (fun t => decide (t.user_id = userId))

/-! ## Engine lemmas -/

theorem evaluateActive_decision (dist : Location → Location → Rat) (tx : Transaction)
    (profile : UserProfile) (s : EngineState) (ms : Rat) :
    (SentinelEngine.evaluateActive dist tx profile s ms).1.decision =
      (SentinelEngine.decisionOf dist tx profile s).decision := rfl

theorem evaluateActive_reason_code (dist : Location → Location → Rat) (tx : Transaction)
    (profile : UserProfile) (s : EngineState) (ms : Rat) :
    (SentinelEngine.evaluateActive dist tx profile s ms).1.reason_code =
      (SentinelEngine.decisionOf dist tx profile s).reason_code := rfl

theorem evaluateActive_override (dist : Location → Location → Rat) (tx : Transaction)
    (profile : UserProfile) (s : EngineState) (ms : Rat) :
    (SentinelEngine.evaluateActive dist tx profile s ms).1.escalation_override =
      (SentinelEngine.decisionOf dist tx profile s).escalation_override := rfl

theorem evaluateActive_score (dist : Location → Location → Rat) (tx : Transaction)
    (profile : UserProfile) (s : EngineState) (ms : Rat) :
    (SentinelEngine.evaluateActive dist tx profile s ms).1.final_risk_score =
      (SentinelEngine.decisionOf dist tx profile s).finalScore := rfl

theorem evaluateActive_coordinated (dist : Location → Location → Rat) (tx : Transaction)
    (profile : UserProfile) (s : EngineState) (ms : Rat) :
    (SentinelEngine.evaluateActive dist tx profile s ms).1.coordinated_attack =
      (SentinelEngine.scorePipeline dist tx profile s).coordinated := rfl

theorem evaluateActive_coordEvents (dist : Location → Location → Rat) (tx : Transaction)
    (profile : UserProfile) (s : EngineState) (ms : Rat) :
    (SentinelEngine.evaluateActive dist tx profile s ms).2.coordEvents =
      CoordinatedAttackDetector.record tx s.coordEvents := rfl

theorem evaluateActive_esc (dist : Location → Location → Rat) (tx : Transaction)
    (profile : UserProfile) (s : EngineState) (ms : Rat) :
    (SentinelEngine.evaluateActive dist tx profile s ms).2.esc =
      SentinelEngine.escUpdate s.esc tx.user_id tx.timestamp
        (SentinelEngine.decisionOf dist tx profile s).decision := by
  simp only [SentinelEngine.evaluateActive]

theorem evaluate_eq_active (dist : Location → Location → Rat) (tx : Transaction)
    (profile : UserProfile) (s : EngineState) (ms : Rat)
    (hb : profile.account_status ≠ AccountStatus.BLOCKED) :
    SentinelEngine.evaluate dist tx profile s ms =
      SentinelEngine.evaluateActive dist tx profile s ms := by
  unfold SentinelEngine.evaluate
  rw [if_neg hb]

theorem scorePipeline_finalScore_le (dist : Location → Location → Rat) (tx : Transaction)
    (profile : UserProfile) (s : EngineState) :
    (SentinelEngine.scorePipeline dist tx profile s).finalScore ≤ 100 := by
  show min 100 _ ≤ 100
  exact Nat.min_le_left _ _

theorem decisionStep_finalScore_le (tx : Transaction) (history : List Transaction)
    (coordEvents : List CoordEvent) (esc : EscalationTracker) (coordinated : Bool)
    (finalScore : Nat) (allReasons : List String) (h : finalScore ≤ 100) :
    (SentinelEngine.decisionStep tx history coordEvents esc coordinated finalScore
      allReasons).finalScore ≤ 100 := by
  unfold SentinelEngine.decisionStep
  split
  · exact h
  · split
    · split
      · show max finalScore 70 ≤ 100
        omega
      · split
        · exact h
        · exact h
    · exact h

/-! ## Concrete fixtures used by witnesses and counterexamples -/

/-- The zero distance oracle. -/
def dist0 : Location → Location → Rat := fun _ _ => 0

def locW : Location := { lat := 19, lon := 72, city := "Mumbai" }

/-- A benign transaction: registered city and device, 4G, amount within
all limits. -/
def txW : Transaction :=
  { transaction_id := "t1", user_id := "u1", amount := 1500, timestamp := 1000000000,
    device_id := "d1", ip_address := "ip", location := locW, merchant_id := "m1",
    merchant_category := some "M1", network_type := .G4, session_id := "s1" }

/-- A benign active profile for `txW`. -/
def profW : UserProfile :=
  { user_id := "u1", registered_city := "Mumbai", registered_device_id := "d1",
    avg_transaction_amount := 2000, max_transaction_amount := 50000,
    daily_transaction_limit := 100000, avg_transactions_per_day := 5,
    kyc_status := .VERIFIED, risk_category := .LOW, account_status := .ACTIVE,
    usual_login_times := (0, 23), last_login := 0, failed_attempts_last_10_min := 0 }

/-- `profW` with a dormant account: behavioral +45, total 45. -/
def profDormantW : UserProfile := { profW with account_status := .DORMANT }

/-- Dormant + VPN transaction: 45 + 20 = 65. -/
def txVpnW : Transaction := { txW with network_type := .VPN }

/-- Dormant + failed KYC + VPN: 45 + 35 + 20 = 100, a score BLOCK. -/
def profHotW : UserProfile :=
  { profW with account_status := .DORMANT, kyc_status := .FAILED }

/-- A blocked-account profile. -/
def profBlockedW : UserProfile := { profW with account_status := .BLOCKED }

/-- Engine state where user u1 already has three step-ups within the
15-minute window of `txW.timestamp`. -/
def sEscW : EngineState :=
  { SentinelEngine.initState with
      esc := fun u => if u = "u1" then [999990000, 999990001, 999990002] else [] }

/-- Engine state where user u1 has one recorded step-up timestamp. -/
def sEscOneW : EngineState :=
  { SentinelEngine.initState with esc := fun u => if u = "u1" then [5] else [] }

/-- Four prior coordination events by four other users, same merchant
category and amount, just before `txW.timestamp`. -/
def sCoordW : EngineState :=
  { SentinelEngine.initState with
      coordEvents :=
        [⟨"a", "M1", 999, 999999990⟩, ⟨"b", "M1", 999, 999999991⟩,
         ⟨"c", "M1", 999, 999999992⟩, ⟨"d", "M1", 999, 999999993⟩] }

/-- `txW` with the coordination amount. -/
def txCoordW : Transaction := { txW with amount := 999 }

/-! ## Claim theorems for the engine -/

/-- Claim C2: on every path of `evaluate` — the normal clamp path, the
escalation override that raises the score to `max(finalScore, 70)`, and
the blocked-account short-circuit returning 100 — the final risk score of
the returned result lies in [0, 100]. -/
theorem claim_C2_score_bounds (dist : Location → Location → Rat) (tx : Transaction)
    (profile : UserProfile) (s : EngineState) (ms : Rat) :
    0 ≤ (SentinelEngine.evaluate dist tx profile s ms).1.final_risk_score ∧
    (SentinelEngine.evaluate dist tx profile s ms).1.final_risk_score ≤ 100 := by
  refine ⟨Nat.zero_le _, ?_⟩
  unfold SentinelEngine.evaluate
  split
  · exact Nat.le_refl 100
  · rw [evaluateActive_score]
    exact decisionStep_finalScore_le tx s.history _ s.esc _ _ _
      (scorePipeline_finalScore_le dist tx profile s)

/-- Claim C9: for a profile with `account_status = BLOCKED`, `evaluate`
short-circuits: score 100, all six component scores 0, decision BLOCK
with ERR_BLOCKED_USER, and the transaction history is left unchanged, so
`getHistory` answers exactly as before the call for every user. -/
theorem claim_C9_blocked_shortcircuit (dist : Location → Location → Rat) (tx : Transaction)
    (profile : UserProfile) (s : EngineState) (ms : Rat)
    (hb : profile.account_status = AccountStatus.BLOCKED) :
    (SentinelEngine.evaluate dist tx profile s ms).1.final_risk_score = 100 ∧
    (SentinelEngine.evaluate dist tx profile s ms).1.component_scores = ⟨0, 0, 0, 0, 0, 0⟩ ∧
    (SentinelEngine.evaluate dist tx profile s ms).1.decision = Decision.BLOCK ∧
    (SentinelEngine.evaluate dist tx profile s ms).1.reason_code = ReasonCode.ERR_BLOCKED_USER ∧
    (SentinelEngine.evaluate dist tx profile s ms).2.history = s.history ∧
    ∀ u, SentinelEngine.getHistory u (SentinelEngine.evaluate dist tx profile s ms).2 =
      SentinelEngine.getHistory u s := by
  unfold SentinelEngine.evaluate
  rw [if_pos hb]
  exact ⟨rfl, rfl, rfl, rfl, rfl, fun u => rfl⟩

/-- Witness for C9 at a concrete blocked profile and a state with prior
history. -/
theorem claim_C9_blocked_shortcircuit_witness :
    (SentinelEngine.evaluate dist0 txW profBlockedW sEscOneW 0).1.final_risk_score = 100 ∧
    (SentinelEngine.evaluate dist0 txW profBlockedW sEscOneW 0).1.component_scores =
      ⟨0, 0, 0, 0, 0, 0⟩ ∧
    (SentinelEngine.evaluate dist0 txW profBlockedW sEscOneW 0).1.decision = Decision.BLOCK ∧
    (SentinelEngine.evaluate dist0 txW profBlockedW sEscOneW 0).1.reason_code =
      ReasonCode.ERR_BLOCKED_USER ∧
    (SentinelEngine.evaluate dist0 txW profBlockedW sEscOneW 0).2.history = sEscOneW.history ∧
    SentinelEngine.getHistory "u1" (SentinelEngine.evaluate dist0 txW profBlockedW sEscOneW 0).2 =
      SentinelEngine.getHistory "u1" sEscOneW :=
  ⟨(claim_C9_blocked_shortcircuit dist0 txW profBlockedW sEscOneW 0 rfl).1,
   (claim_C9_blocked_shortcircuit dist0 txW profBlockedW sEscOneW 0 rfl).2.1,
   (claim_C9_blocked_shortcircuit dist0 txW profBlockedW sEscOneW 0 rfl).2.2.1,
   (claim_C9_blocked_shortcircuit dist0 txW profBlockedW sEscOneW 0 rfl).2.2.2.1,
   (claim_C9_blocked_shortcircuit dist0 txW profBlockedW sEscOneW 0 rfl).2.2.2.2.1,
   (claim_C9_blocked_shortcircuit dist0 txW profBlockedW sEscOneW 0 rfl).2.2.2.2.2 "u1"⟩

theorem decisionStep_mapping (tx : Transaction) (history : List Transaction)
    (coordEvents : List CoordEvent) (esc : EscalationTracker) (coordinated : Bool)
    (fs : Nat) (rs : List String)
    (hesc : (SentinelEngine.decisionStep tx history coordEvents esc coordinated fs
      rs).escalation_override = false)
    (hsec : THRESHOLD_PASS ≤ (SentinelEngine.decisionStep tx history coordEvents esc coordinated
        fs rs).finalScore →
      (SentinelEngine.decisionStep tx history coordEvents esc coordinated fs rs).finalScore <
        THRESHOLD_BLOCK →
      SentinelEngine.secondaryCheck tx history coordEvents esc = true) :
    (THRESHOLD_BLOCK ≤ (SentinelEngine.decisionStep tx history coordEvents esc coordinated fs
        rs).finalScore →
      (SentinelEngine.decisionStep tx history coordEvents esc coordinated fs rs).decision =
        Decision.BLOCK) ∧
    (THRESHOLD_PASS ≤ (SentinelEngine.decisionStep tx history coordEvents esc coordinated fs
        rs).finalScore →
      (SentinelEngine.decisionStep tx history coordEvents esc coordinated fs rs).finalScore <
        THRESHOLD_BLOCK →
      (SentinelEngine.decisionStep tx history coordEvents esc coordinated fs rs).decision =
        Decision.STEP_UP) ∧
    ((SentinelEngine.decisionStep tx history coordEvents esc coordinated fs rs).finalScore <
        THRESHOLD_PASS →
      (SentinelEngine.decisionStep tx history coordEvents esc coordinated fs rs).decision =
        Decision.APPROVE ∧
      (SentinelEngine.decisionStep tx history coordEvents esc coordinated fs rs).reason_code =
        ReasonCode.OK) := by
  unfold SentinelEngine.decisionStep at hesc hsec ⊢
  by_cases h1 : THRESHOLD_BLOCK ≤ fs
  · rw [if_pos h1] at hesc hsec ⊢
    refine ⟨fun _ => rfl, fun _ hlt => ?_, fun hlt => ?_⟩
    · exact absurd h1 (Nat.not_le.mpr (show fs < THRESHOLD_BLOCK from hlt))
    · exact absurd h1 (Nat.not_le.mpr
        (Nat.lt_trans (show fs < THRESHOLD_PASS from hlt)
          (show THRESHOLD_PASS < THRESHOLD_BLOCK by decide)))
  · rw [if_neg h1] at hesc hsec ⊢
    by_cases h2 : THRESHOLD_PASS ≤ fs
    · rw [if_pos h2] at hesc hsec ⊢
      by_cases h3 : EscalationTracker.shouldForceBlock esc tx.user_id fs tx.timestamp = true
      · rw [if_pos h3] at hesc
        simp at hesc
      · rw [if_neg h3] at hesc hsec ⊢
        by_cases h4 : SentinelEngine.secondaryCheck tx history coordEvents esc = true
        · rw [if_pos h4] at hesc hsec ⊢
          refine ⟨fun hge => ?_, fun _ _ => rfl, fun hlt => ?_⟩
          · exact absurd (show THRESHOLD_BLOCK ≤ fs from hge) h1
          · exact absurd h2 (Nat.not_le.mpr (show fs < THRESHOLD_PASS from hlt))
        · rw [if_neg h4] at hesc hsec ⊢
          have hs := hsec (show THRESHOLD_PASS ≤ fs from h2)
            (show fs < THRESHOLD_BLOCK from Nat.lt_of_not_le h1)
          exact absurd hs h4
    · rw [if_neg h2] at hesc hsec ⊢
      refine ⟨fun hge => ?_, fun hge _ => ?_, fun _ => ⟨rfl, rfl⟩⟩
      · exact absurd (show THRESHOLD_BLOCK ≤ fs from hge) h1
      · exact absurd (show THRESHOLD_PASS ≤ fs from hge) h2

/-- Claim C1: on every evaluation in which no override fires (the account
is not BLOCKED, the escalation override did not fire, and the secondary
pre-OTP check passes whenever it is consulted), the decision is exactly
the threshold mapping of the final score: at least 70 gives BLOCK, 40 to
69 gives STEP_UP, below 40 gives APPROVE with reason code OK; in
particular a score of exactly 40 yields STEP_UP and a score of exactly
70 yields BLOCK. -/
theorem claim_C1_decision_mapping (dist : Location → Location → Rat) (tx : Transaction)
    (profile : UserProfile) (s : EngineState) (ms : Rat)
    (hb : profile.account_status ≠ AccountStatus.BLOCKED)
    (hesc : (SentinelEngine.evaluate dist tx profile s ms).1.escalation_override = false)
    (hsec : THRESHOLD_PASS ≤ (SentinelEngine.evaluate dist tx profile s ms).1.final_risk_score →
      (SentinelEngine.evaluate dist tx profile s ms).1.final_risk_score < THRESHOLD_BLOCK →
      SentinelEngine.secondaryCheck tx s.history (CoordinatedAttackDetector.record tx
        s.coordEvents) s.esc = true) :
    (THRESHOLD_BLOCK ≤ (SentinelEngine.evaluate dist tx profile s ms).1.final_risk_score →
      (SentinelEngine.evaluate dist tx profile s ms).1.decision = Decision.BLOCK) ∧
    (THRESHOLD_PASS ≤ (SentinelEngine.evaluate dist tx profile s ms).1.final_risk_score →
      (SentinelEngine.evaluate dist tx profile s ms).1.final_risk_score < THRESHOLD_BLOCK →
      (SentinelEngine.evaluate dist tx profile s ms).1.decision = Decision.STEP_UP) ∧
    ((SentinelEngine.evaluate dist tx profile s ms).1.final_risk_score < THRESHOLD_PASS →
      (SentinelEngine.evaluate dist tx profile s ms).1.decision = Decision.APPROVE ∧
      (SentinelEngine.evaluate dist tx profile s ms).1.reason_code = ReasonCode.OK) := by
  rw [evaluate_eq_active dist tx profile s ms hb] at hesc hsec ⊢
  rw [evaluateActive_override] at hesc
  rw [evaluateActive_score] at hsec
  rw [evaluateActive_score, evaluateActive_decision, evaluateActive_reason_code]
  exact decisionStep_mapping tx s.history (CoordinatedAttackDetector.record tx s.coordEvents)
    s.esc _ _ _ hesc hsec

/-- Witness for C1: the concrete dormant-account transaction scores 45,
the secondary check passes on the fresh state, and the decision is
STEP_UP. -/
theorem claim_C1_decision_mapping_witness :
    (SentinelEngine.evaluate dist0 txW profDormantW SentinelEngine.initState 0).1.decision =
      Decision.STEP_UP :=
  (claim_C1_decision_mapping dist0 txW profDormantW SentinelEngine.initState 0 (by decide)
    (by with_unfolding_all decide) (fun _ _ => by with_unfolding_all decide)).2.1
    (by with_unfolding_all decide) (by with_unfolding_all decide)

/-- Claim C6: the Amount evaluator applies at most one tier, the first
that matches (+75 above `max_transaction_amount`, else +45 above
`daily_transaction_limit`, else +20 above three times the average), its
score never exceeds the ceiling 75, and an amount exactly equal to
`max_transaction_amount` with the other tiers not matching incurs no
penalty. -/
theorem claim_C6_amount_tiers (tx : Transaction) (profile : UserProfile) :
    ((AmountRiskEngine.evaluate tx profile).score =
      if profile.max_transaction_amount < tx.amount then 75
      else if profile.daily_transaction_limit < tx.amount then 45
      else if profile.avg_transaction_amount * 3 < tx.amount then 20
      else 0) ∧
    (AmountRiskEngine.evaluate tx profile).score ≤ 75 ∧
    (tx.amount = profile.max_transaction_amount →
      ¬ profile.daily_transaction_limit < tx.amount →
      ¬ profile.avg_transaction_amount * 3 < tx.amount →
      (AmountRiskEngine.evaluate tx profile).score = 0) := by
  unfold AmountRiskEngine.evaluate
  split_ifs with h1 h2 h3
  · exact ⟨rfl, by decide, fun he _ _ => absurd h1 (by omega)⟩
  · exact ⟨rfl, by decide, fun _ hd _ => absurd h2 hd⟩
  · exact ⟨rfl, by decide, fun _ _ ha => absurd h3 ha⟩
  · exact ⟨rfl, by decide, fun _ _ _ => rfl⟩

/-- `txW` at exactly the maximum transaction amount. -/
def txAmtW : Transaction := { txW with amount := 50000 }

/-- `profW` with a raised average so that the spike tier does not match
at the maximum amount. -/
def profAmtW : UserProfile := { profW with avg_transaction_amount := 20000 }

/-- Witness for C6: at an amount exactly equal to the maximum (with the
daily-limit and spike tiers not matching) the Amount evaluator returns
score 0, within the ceiling. -/
theorem claim_C6_amount_tiers_witness :
    (AmountRiskEngine.evaluate txAmtW profAmtW).score = 0 ∧
    (AmountRiskEngine.evaluate txAmtW profAmtW).score ≤ 75 :=
  ⟨(claim_C6_amount_tiers txAmtW profAmtW).2.2 rfl (by decide) (by decide),
   (claim_C6_amount_tiers txAmtW profAmtW).2.1⟩

theorem scorePipeline_coordinated (dist : Location → Location → Rat) (tx : Transaction)
    (profile : UserProfile) (s : EngineState) :
    (SentinelEngine.scorePipeline dist tx profile s).coordinated =
      CoordinatedAttackDetector.detect tx (CoordinatedAttackDetector.record tx s.coordEvents) := by
  simp only [SentinelEngine.scorePipeline]

theorem mem_drop_append_last (x : CoordEvent) (l : List CoordEvent) (k : Nat)
    (hk : k ≤ l.length) : x ∈ (l ++ [x]).drop k := by
  rw [List.drop_append_of_le_length hk]
  simp

theorem record_mem_self (tx : Transaction) (events : List CoordEvent) :
    CoordEvent.mk tx.user_id (merchantCategoryOf tx) tx.amount tx.timestamp ∈
      CoordinatedAttackDetector.record tx events := by
  simp only [CoordinatedAttackDetector.record]
  split
  · apply mem_drop_append_last
    rw [List.length_append, List.length_singleton]
    omega
  · simp

theorem record_window_bound (tx : Transaction) (events : List CoordEvent) :
    ∀ e ∈ CoordinatedAttackDetector.record tx events,
      (tx.timestamp : Int) - (e.timestamp : Int) ≤ COORD_WINDOW_MS := by
  intro e he
  simp only [CoordinatedAttackDetector.record] at he
  have he' : e ∈ (events.filter
      (fun e => decide ((tx.timestamp : Int) - (e.timestamp : Int) ≤ COORD_WINDOW_MS))) ++
      [CoordEvent.mk tx.user_id (merchantCategoryOf tx) tx.amount tx.timestamp] := by
    split at he
    · exact List.drop_subset _ _ he
    · exact he
  rcases List.mem_append.mp he' with hf | hs
  · exact of_decide_eq_true (List.mem_filter.mp hf).2
  · rw [List.mem_singleton] at hs
    subst hs
    show (tx.timestamp : Int) - (tx.timestamp : Int) ≤ COORD_WINDOW_MS
    have hw : COORD_WINDOW_MS = 120000 := rfl
    omega

/-- Claim C7: during `evaluate` on a non-blocked account the detector
state becomes `record tx` (prune-then-append, so the current transaction
is itself among the retained events and nothing older than the 2-minute
window survives), the result's `coordinated_attack` flag is `detect tx`
evaluated on the post-record events, and `detect tx` is true exactly when
the in-window events sharing tx's merchant category with amount within
the inclusive band [tx.amount·(19/20), tx.amount·(21/20)] span at least
5 distinct user ids. -/
theorem claim_C7_coordinated (dist : Location → Location → Rat) (tx : Transaction)
    (profile : UserProfile) (s : EngineState) (ms : Rat)
    (hb : profile.account_status ≠ AccountStatus.BLOCKED) :
    ((SentinelEngine.evaluate dist tx profile s ms).2.coordEvents =
      CoordinatedAttackDetector.record tx s.coordEvents) ∧
    ((SentinelEngine.evaluate dist tx profile s ms).1.coordinated_attack =
      CoordinatedAttackDetector.detect tx (CoordinatedAttackDetector.record tx s.coordEvents)) ∧
    (CoordEvent.mk tx.user_id (merchantCategoryOf tx) tx.amount tx.timestamp ∈
      CoordinatedAttackDetector.record tx s.coordEvents) ∧
    (∀ e ∈ CoordinatedAttackDetector.record tx s.coordEvents,
      (tx.timestamp : Int) - (e.timestamp : Int) ≤ COORD_WINDOW_MS) ∧
    (∀ evs, CoordinatedAttackDetector.detect tx evs = true ↔
      COORD_MIN_USERS ≤
        (((evs.filter (fun e =>
            decide ((tx.timestamp : Int) - (e.timestamp : Int) ≤ COORD_WINDOW_MS))).filter
          (fun e => decide (e.merchant_category = merchantCategoryOf tx) &&
            decide ((tx.amount : Rat) * (19 / 20) ≤ (e.amount : Rat)) &&
            decide ((e.amount : Rat) ≤ (tx.amount : Rat) * (21 / 20)))).map
          (fun e => e.user_id)).dedup.length) := by
  refine ⟨?_, ?_, record_mem_self tx s.coordEvents, record_window_bound tx s.coordEvents, ?_⟩
  · rw [evaluate_eq_active dist tx profile s ms hb]
    exact evaluateActive_coordEvents dist tx profile s ms
  · rw [evaluate_eq_active dist tx profile s ms hb, evaluateActive_coordinated]
    exact scorePipeline_coordinated dist tx profile s
  · intro evs
    have h1 : (1 - COORD_AMOUNT_VARIANCE : Rat) = 19 / 20 := by
      norm_num [COORD_AMOUNT_VARIANCE]
    have h2 : (1 + COORD_AMOUNT_VARIANCE : Rat) = 21 / 20 := by
      norm_num [COORD_AMOUNT_VARIANCE]
    simp only [CoordinatedAttackDetector.detect, h1, h2, decide_eq_true_eq]

/-- Witness for C7: the fifth near-identical transaction by a fifth user
is recorded before detection and the detector fires. -/
theorem claim_C7_coordinated_witness :
    (SentinelEngine.evaluate dist0 txCoordW profW sCoordW 0).2.coordEvents =
      CoordinatedAttackDetector.record txCoordW sCoordW.coordEvents ∧
    CoordEvent.mk txCoordW.user_id (merchantCategoryOf txCoordW) txCoordW.amount
      txCoordW.timestamp ∈ CoordinatedAttackDetector.record txCoordW sCoordW.coordEvents ∧
    (CoordinatedAttackDetector.detect txCoordW
      (CoordinatedAttackDetector.record txCoordW sCoordW.coordEvents) = true) :=
  ⟨(claim_C7_coordinated dist0 txCoordW profW sCoordW 0 (by decide)).1,
   (claim_C7_coordinated dist0 txCoordW profW sCoordW 0 (by decide)).2.2.1,
   by with_unfolding_all decide⟩

/-- Claim C8: when the pipeline score lies in [40, 70) and the escalation
predicate holds (at least 3 recorded step-ups in the 15-minute window of
`tx.timestamp` and score at least 60), the result is a BLOCK with
ERR_ESCALATION_OVERRIDE, `escalation_override = true`, and the final
score raised to `max(score, 70)`, hence at least 70. -/
theorem claim_C8_escalation_override (dist : Location → Location → Rat) (tx : Transaction)
    (profile : UserProfile) (s : EngineState) (ms : Rat)
    (hb : profile.account_status ≠ AccountStatus.BLOCKED)
    (h40 : THRESHOLD_PASS ≤ (SentinelEngine.scorePipeline dist tx profile s).finalScore)
    (h70 : (SentinelEngine.scorePipeline dist tx profile s).finalScore < THRESHOLD_BLOCK)
    (hcnt : ESC_MIN_STEPUPS ≤ ((s.esc tx.user_id).filter
      (fun (t : Nat) => decide ((tx.timestamp : Int) - ESC_WINDOW_MS < (t : Int)))).length)
    (hscore : ESC_RISK_THRESH ≤ (SentinelEngine.scorePipeline dist tx profile s).finalScore) :
    (SentinelEngine.evaluate dist tx profile s ms).1.decision = Decision.BLOCK ∧
    (SentinelEngine.evaluate dist tx profile s ms).1.reason_code =
      ReasonCode.ERR_ESCALATION_OVERRIDE ∧
    (SentinelEngine.evaluate dist tx profile s ms).1.escalation_override = true ∧
    (SentinelEngine.evaluate dist tx profile s ms).1.final_risk_score =
      max (SentinelEngine.scorePipeline dist tx profile s).finalScore 70 ∧
    THRESHOLD_BLOCK ≤ (SentinelEngine.evaluate dist tx profile s ms).1.final_risk_score := by
  have hsfb : EscalationTracker.shouldForceBlock s.esc tx.user_id
      (SentinelEngine.scorePipeline dist tx profile s).finalScore tx.timestamp = true := by
    unfold EscalationTracker.shouldForceBlock
    rw [Bool.and_eq_true, decide_eq_true_eq, decide_eq_true_eq]
    exact ⟨hcnt, hscore⟩
  have hkey : SentinelEngine.decisionOf dist tx profile s =
      { decision := Decision.BLOCK
        reason_code := ReasonCode.ERR_ESCALATION_OVERRIDE
        escalation_override := true
        finalScore := max (SentinelEngine.scorePipeline dist tx profile s).finalScore 70
        reasons := (SentinelEngine.scorePipeline dist tx profile s).reasons ++
          ["ERR_ESCALATION_OVERRIDE: repeated challenges forced BLOCK"] } := by
    unfold SentinelEngine.decisionOf SentinelEngine.decisionStep
    rw [if_neg (Nat.not_le.mpr h70), if_pos h40, if_pos hsfb]
  rw [evaluate_eq_active dist tx profile s ms hb, evaluateActive_decision,
    evaluateActive_reason_code, evaluateActive_override, evaluateActive_score, hkey]
  refine ⟨rfl, rfl, rfl, rfl, ?_⟩
  show THRESHOLD_BLOCK ≤ max (SentinelEngine.scorePipeline dist tx profile s).finalScore 70
  exact Nat.le_max_right _ _

/-- Witness for C8: the concrete dormant-account VPN transaction scores
65 and the user has three step-ups in the window, so the call blocks with
the override and raises the score to 70. -/
theorem claim_C8_escalation_override_witness :
    (SentinelEngine.evaluate dist0 txVpnW profDormantW sEscW 0).1.decision = Decision.BLOCK ∧
    (SentinelEngine.evaluate dist0 txVpnW profDormantW sEscW 0).1.reason_code =
      ReasonCode.ERR_ESCALATION_OVERRIDE ∧
    (SentinelEngine.evaluate dist0 txVpnW profDormantW sEscW 0).1.escalation_override = true ∧
    THRESHOLD_BLOCK ≤
      (SentinelEngine.evaluate dist0 txVpnW profDormantW sEscW 0).1.final_risk_score :=
  ⟨(claim_C8_escalation_override dist0 txVpnW profDormantW sEscW 0 (by decide)
      (by with_unfolding_all decide) (by with_unfolding_all decide) (by decide)
      (by with_unfolding_all decide)).1,
   (claim_C8_escalation_override dist0 txVpnW profDormantW sEscW 0 (by decide)
      (by with_unfolding_all decide) (by with_unfolding_all decide) (by decide)
      (by with_unfolding_all decide)).2.1,
   (claim_C8_escalation_override dist0 txVpnW profDormantW sEscW 0 (by decide)
      (by with_unfolding_all decide) (by with_unfolding_all decide) (by decide)
      (by with_unfolding_all decide)).2.2.1,
   (claim_C8_escalation_override dist0 txVpnW profDormantW sEscW 0 (by decide)
      (by with_unfolding_all decide) (by with_unfolding_all decide) (by decide)
      (by with_unfolding_all decide)).2.2.2.2⟩

/-- Claim C10 as stated is false: the blocked-account short-circuit
returns a BLOCK decision without touching the escalation tracker, so a
BLOCK does not always clear the user's step-up list.  Concretely, a call
on a BLOCKED profile with one recorded step-up returns BLOCK and leaves
the list equal to `[5]`. -/
theorem claim_C10_counterexample :
    (SentinelEngine.evaluate dist0 txW profBlockedW sEscOneW 0).1.decision = Decision.BLOCK ∧
    ¬ ((SentinelEngine.evaluate dist0 txW profBlockedW sEscOneW 0).2.esc txW.user_id = []) :=
  ⟨by decide, by decide⟩

/-- Claim C10 (amended): within one `evaluate` call on a non-BLOCKED
account the escalation tracker is updated only after the decision has
been computed — a BLOCK decision clears the user's step-up list, a
STEP_UP prunes the window and appends `tx.timestamp`, an APPROVE leaves
the tracker untouched — and the escalation override is decided against
the pre-call tracker state, so the current transaction's own step-up is
never counted.  The blocked-account short-circuit leaves the tracker
untouched even though it returns BLOCK. -/
theorem claim_C10_tracker_update (dist : Location → Location → Rat) (tx : Transaction)
    (profile : UserProfile) (s : EngineState) (ms : Rat)
    (hb : profile.account_status ≠ AccountStatus.BLOCKED) :
    ((SentinelEngine.evaluate dist tx profile s ms).1.decision = Decision.BLOCK →
      (SentinelEngine.evaluate dist tx profile s ms).2.esc tx.user_id = []) ∧
    ((SentinelEngine.evaluate dist tx profile s ms).1.decision = Decision.STEP_UP →
      (SentinelEngine.evaluate dist tx profile s ms).2.esc tx.user_id =
        (s.esc tx.user_id).filter
          (fun (t : Nat) => decide ((tx.timestamp : Int) - ESC_WINDOW_MS < (t : Int))) ++
          [tx.timestamp]) ∧
    ((SentinelEngine.evaluate dist tx profile s ms).1.decision = Decision.APPROVE →
      (SentinelEngine.evaluate dist tx profile s ms).2.esc = s.esc) ∧
    ((SentinelEngine.evaluate dist tx profile s ms).1.escalation_override = true →
      EscalationTracker.shouldForceBlock s.esc tx.user_id
        (SentinelEngine.scorePipeline dist tx profile s).finalScore tx.timestamp = true) := by
  rw [evaluate_eq_active dist tx profile s ms hb, evaluateActive_decision, evaluateActive_esc,
    evaluateActive_override]
  refine ⟨?_, ?_, ?_, ?_⟩
  · intro hd
    rw [hd]
    simp [SentinelEngine.escUpdate, EscalationTracker.recordBlock]
  · intro hd
    rw [hd]
    simp [SentinelEngine.escUpdate, EscalationTracker.recordStepUp]
  · intro hd
    rw [hd]
    simp [SentinelEngine.escUpdate]
  · intro hov
    unfold SentinelEngine.decisionOf SentinelEngine.decisionStep at hov
    by_cases h1 : THRESHOLD_BLOCK ≤ (SentinelEngine.scorePipeline dist tx profile s).finalScore
    · rw [if_pos h1] at hov
      simp at hov
    · rw [if_neg h1] at hov
      by_cases h2 : THRESHOLD_PASS ≤ (SentinelEngine.scorePipeline dist tx profile s).finalScore
      · rw [if_pos h2] at hov
        by_cases h3 : EscalationTracker.shouldForceBlock s.esc tx.user_id
            (SentinelEngine.scorePipeline dist tx profile s).finalScore tx.timestamp = true
        · exact h3
        · rw [if_neg h3] at hov
          by_cases h4 : SentinelEngine.secondaryCheck tx s.history
              (CoordinatedAttackDetector.record tx s.coordEvents) s.esc = true
          · rw [if_pos h4] at hov
            simp at hov
          · rw [if_neg h4] at hov
            simp at hov
      · rw [if_neg h2] at hov
        simp at hov

/-- Witness for the amended C10: a concrete non-blocked call that blocks
on score (dormant + failed KYC + VPN = 100) clears the user's previously
recorded step-up list. -/
theorem claim_C10_tracker_update_witness :
    (SentinelEngine.evaluate dist0 txVpnW profHotW sEscOneW 0).2.esc txVpnW.user_id = [] :=
  (claim_C10_tracker_update dist0 txVpnW profHotW sEscOneW 0 (by decide)).1
    (by with_unfolding_all decide)

end SentinelPay
